import Mathlib

/-!
Shallow embedding of `src/src/main.py` (jd-screener-resume-picker-bot):
an HTTP handler that screens a pool of resumes, fetched from a
spreadsheet, against a job description via a generative model.

External collaborators (the Firebase token verifier, the Sheets store,
the model endpoint) are passed in as parameters; each invocation of one
is recorded as a `CallEvent` so call-count properties can be stated.
The constant CORS header dictionary and the logging destination carry no
information relevant to any property and are omitted (log MESSAGES are
kept where a property mentions them).
-/

namespace JdScreener

/-- One observable invocation of an external collaborator. -/
inductive CallEvent where
  | verifierCall  -- firebase_admin.auth.verify_id_token (line 122)
  | storeCall     -- sheet.values().get(...).execute() (line 135)
  | modelCall     -- model_instance.generate_content (line 195)
  deriving DecidableEq

/-- Python `str.lower()`, per-character case mapping (ASCII-faithful). -/
def pyLower (s : String) : String := ⟨s.data.map Char.toLower⟩

/-- Python substring membership `needle in hay` on strings. -/
def pyIn (needle hay : String) : Bool := decide (List.IsInfix needle.data hay.data)

/-- Candidate record appended at src/src/main.py line 145. -/
structure Resume where
  name : String
  content : String
  is_archived : Bool
  path : String
  deriving DecidableEq

/-- Decoding of one raw sheet row (lines 140-144): positional fields,
status defaulting to "" when position 2 is absent and path to "#" when
position 3 is absent; is_archived is the case-insensitive substring test
"archived" in status.lower() (line 144). -/
def decodeRow (row : List String) : Resume :=
  { name := row.getD 0 ""
    content := row.getD 1 ""
    is_archived := pyIn "archived" (pyLower (row.getD 2 ""))
    path := row.getD 3 "#" }

/-- The row loop of fetch_resumes_from_sheet (lines 137-146): a row of
length < 2 is skipped with `continue`; the rest are decoded and appended
in order. -/
def decodeRows (rows : List (List String)) : List Resume :=
  rows.foldl (fun resumes row =>
    if row.length < 2 then resumes else resumes ++ [decodeRow row]) []

/-- Result of fetch_resumes_from_sheet: the returned list, the diagnostics
written through logger, and the collaborator invocations made. -/
structure FetchOut where
  resumes : List Resume
  logs : List String
  calls : List CallEvent
  deriving DecidableEq

/-- fetch_resumes_from_sheet (lines 128-149).  `sheetId` is the SHEET_ID
environment value (`none` = unset; Python `if not SHEET_ID` also treats
the empty string as missing).  `store` is the outcome of the
values().get().execute() call, `.error e` being a raised exception with
message `e`.  The surrounding try/except (lines 130, 147-149) converts
every failure into an empty list plus a logged diagnostic; nothing is
re-raised to the caller. -/
def fetch_resumes_from_sheet (sheetId : Option String)
    (store : Except String (List (List String))) : FetchOut :=
  match sheetId with
  | none => ⟨[], ["SHEET_ID is missing"], []⟩
  | some sid =>
    if sid = "" then ⟨[], ["SHEET_ID is missing"], []⟩
    else
      match store with
      | .error e => ⟨[], ["Error reading sheet: " ++ e], [.storeCall]⟩
      | .ok rows => ⟨decodeRows rows, [], [.storeCall]⟩

/-- Python str.startswith: prefix test on the character sequences. -/
def pyStartsWith (s pre : String) : Bool := pre.data.isPrefixOf s.data

/-- The token extraction auth_header.split("Bearer ")[1] (line 120):
the text after the leading "Bearer " (7 characters).  For a header that
contains the separator once, which is the only shape any property here
examines and the token's text is never inspected further, this equals
the Python split. -/
def bearerToken (h : String) : String := ⟨h.data.drop "Bearer ".data.length⟩

/-- verify_firebase_token (lines 115-126).  `vt` is
firebase_admin.auth.verify_id_token, `none` meaning verification raised
(the except at lines 124-126 then returns None).  A missing, empty or
non-"Bearer " header short-circuits to None without calling the
verifier. -/
def verify_firebase_token (vt : String → Option String)
    (authHeader : Option String) : Option String × List CallEvent :=
  match authHeader with
  | none => (none, [])
  | some h =>
    if h = "" ∨ pyStartsWith h "Bearer " = false then (none, [])
    else (vt (bearerToken h), [.verifierCall])

/-- The per-candidate block of the f-string at line 176. -/
def candidateBlock (r : Resume) : String :=
  "\n--- RESUME: " ++ r.name ++ ", path_to_resume: " ++ r.path ++ ", "
    ++ (if r.is_archived then "[ARCHIVED]" else "[ACTIVE]")
    ++ " ---\n" ++ r.content ++ "\n"

/-- The context_str accumulation loop at lines 173-176. -/
def contextStr (resumes : List Resume) : String :=
  resumes.foldl (fun context_str r => context_str ++ candidateBlock r) ""

/-- The candidate blocks concatenated in input order, by structural
recursion; used to state the order-preservation property of
`contextStr`. -/
def blocksConcat : List Resume → String
  | [] => ""
  | r :: rs => candidateBlock r ++ blocksConcat rs

/-- system_instruction (lines 179-188), the literal concatenation of the
adjacent string fragments. -/
def system_instruction : String :=
  "SYSTEM INSTRUCTION: \n1. DATE CHECK: First, use the Google Search tool to find \x27current date today\x27. Print this date clearly at the top of your response.\n2. CALCULATION: If you need to calculate years of experience (e.g., Jan 2020 to Present), or any other calculations use the Code Interpreter (Python) to get the exact duration. Do not guess.\n3. EVALUATION: Use the fetched date as the baseline for \x27Present\x27 roles.\n4. Use the arsenal of tools, don\x27t assume.---------------------------------------------------\n"

/-- PROMPT_TEMPLATE text (lines 36-92) before the jd_text placeholder.
The template's English instruction text is inert configuration (never
branched on); the long rubric body is abridged here, while the
placeholder structure, one jd_text slot followed by one context_str
slot, is exact. -/
def promptHead : String :=
  "\n**ROLE:** Ruthless Technical Screener & Resume Auditor.\n**INPUT JD:** "

/-- PROMPT_TEMPLATE text between the jd_text and context_str
placeholders. -/
def promptMid : String := "\n**RESUME POOL:** "

/-- PROMPT_TEMPLATE text after the context_str placeholder (abridged:
the fixed screener rubric of lines 41-92). -/
def promptTail : String :=
  "\n\n**MINDSET:** [fixed screener rubric, src lines 41-92]\n"

/-- PROMPT_TEMPLATE.format(jd_text=..., context_str=...) at line 190. -/
def PROMPT_TEMPLATE_format (jd_text context_str : String) : String :=
  promptHead ++ jd_text ++ promptMid ++ context_str ++ promptTail

/-- full_prompt (line 190): system_instruction prepended to the filled
template. -/
def full_prompt (jd_text : String) (resumes : List Resume) : String :=
  system_instruction ++ PROMPT_TEMPLATE_format jd_text (contextStr resumes)

/-- Message of the TypeError raised at line 191:
logger.log("Prompt length: " + len(full_prompt)) evaluates a str+int
concatenation, which raises before logger.log is even entered. -/
def typeError191 : String := "can only concatenate str (not \x22int\x22) to str"

/-- Outcome of executing line 191.  The argument expression
"Prompt length: " + len(full_prompt) always raises TypeError (str+int),
so this line raises unconditionally. -/
def loggerLogLine191 : Except String Unit := Except.error typeError191

/-- analyze_with_gemini (lines 151-203).  `generate` is the outcome of
model_instance.generate_content(...).text for a given prompt (`.error` =
the call raised).  In the result, `.ok s` means the function RETURNS s
(note the except at lines 201-203 returns the error STRING normally,
it does not re-raise), while `.error e` means the function RAISES e to
its caller.  Line 191 sits between the prompt assembly and the try at
line 193: because it always raises, the try/except is never entered and
the model endpoint is never invoked. -/
def analyze_with_gemini (generate : String → Except String String)
    (jd_text : String) (resumes : List Resume) :
    Except String String × List CallEvent :=
  let fp := full_prompt jd_text resumes
  match loggerLogLine191 with
  | .error e => (Except.error e, [])
  | .ok _ =>
    match generate fp with
    | .ok text => (Except.ok text, [.modelCall])
    | .error e => (Except.ok ("Error generating content: " ++ e), [.modelCall])

/-- HTML_FORM (line 206): the source file keeps a placeholder string. -/
def HTML_FORM : String := "... (Keep your existing HTML) ..."

/-- Response body: empty (OPTIONS), a plain string (Flask treats it as
text/html), or a jsonify object with string fields. -/
inductive Body where
  | empty
  | text (s : String)
  | json (fields : List (String × String))
  deriving DecidableEq

/-- An outbound response: body and HTTP status.  The constant CORS
header dict is omitted. -/
structure Response where
  body : Body
  status : Nat
  deriving DecidableEq

/-- One inbound HTTP request, reduced to the attributes handle_chat
reads.  `jsonMessageText` and `jsonJd` model
data.get("message", \x7b\x7d).get("text", "") and data.get("jd", "")
over a JSON object body; a missing or unparseable JSON body
(get_json(silent=True) returning None, line 232) is both fields none. -/
structure Request where
  method : String
  authorization : Option String
  content_type : Option String
  jsonMessageText : Option String
  jsonJd : Option String
  formJd : Option String
  deriving DecidableEq

/-- Job-description extraction (lines 230-235).  The JSON branch is
taken only on EXACT content-type equality with "application/json"; the
Python `or` takes the nested message text when non-empty, else the
top-level jd field; the form branch reads form field "jd". -/
def jd_of (req : Request) : String :=
  if req.content_type = some "application/json" then
    let mt := req.jsonMessageText.getD ""
    if mt = "" then req.jsonJd.getD "" else mt
  else
    req.formJd.getD ""

/-- handle_chat (lines 209-255).  The model-analysis step is the
`analyze` parameter, instantiated with `analyze_with_gemini generate`
for the composed program; `vt`, `sheetId`, `store` are as above.  A
`.error` from `analyze` is a raised exception, caught by the catch-all
at lines 253-255 and rendered as "System Error: " ++ str(e) with
status 500.  A method other than OPTIONS/GET/POST falls off the Python
function (returns None); modeled as an empty status-0 response. -/
def handle_chat
    (analyze : String → List Resume → Except String String × List CallEvent)
    (vt : String → Option String)
    (sheetId : Option String)
    (store : Except String (List (List String)))
    (req : Request) : Response × List CallEvent :=
  if req.method = "OPTIONS" then (⟨.empty, 204⟩, [])
  else if req.method = "GET" then (⟨.text HTML_FORM, 200⟩, [])
  else if req.method = "POST" then
    match verify_firebase_token vt req.authorization with
    | (none, ev) => (⟨.json [("error", "Unauthorized")], 401⟩, ev)
    | (some _, ev) =>
      let is_json := req.content_type = some "application/json"
      let jd_text := jd_of req
      if jd_text = "" then (⟨.text "Error: No JD provided.", 400⟩, ev)
      else
        let fo := fetch_resumes_from_sheet sheetId store
        if fo.resumes = [] then
          (⟨.text "Error: No resumes found.", 500⟩, ev ++ fo.calls)
        else
          match analyze jd_text fo.resumes with
          | (.error e, evm) =>
            (⟨.text ("System Error: " ++ e), 500⟩, ev ++ fo.calls ++ evm)
          | (.ok markdown_result, evm) =>
            if is_json then
              (⟨.json [("markdown", markdown_result)], 200⟩, ev ++ fo.calls ++ evm)
            else
              (⟨.text ("<html><body><pre>" ++ markdown_result ++ "</pre></body></html>"), 200⟩,
                ev ++ fo.calls ++ evm)
  else (⟨.empty, 0⟩, [])

/-! Helper lemmas. -/

/-- The decoder loop with an arbitrary accumulator equals the
accumulator followed by filter-then-map. -/
theorem decodeRows_go (rows : List (List String)) (acc : List Resume) :
    rows.foldl (fun resumes row =>
      if row.length < 2 then resumes else resumes ++ [decodeRow row]) acc
    = acc ++ (rows.filter (fun row => decide (2 ≤ row.length))).map decodeRow := by
  induction rows generalizing acc with
  | nil => simp
  | cons r rs ih =>
    by_cases h : r.length < 2
    · have h2 : ¬ 2 ≤ r.length := by omega
      simp [h, h2, ih]
    · have h2 : 2 ≤ r.length := by omega
      simp [h, h2, ih]

/-- The decoder is the length-≥-2 filter followed by positional
decoding, in order. -/
theorem decodeRows_filter_map (rows : List (List String)) :
    decodeRows rows
      = (rows.filter (fun row => decide (2 ≤ row.length))).map decodeRow := by
  simpa [decodeRows] using decodeRows_go rows []

/-- verify_firebase_token invokes the verifier at most once. -/
theorem verify_calls_sub (vt : String → Option String) (ah : Option String) :
    (verify_firebase_token vt ah).2 = []
      ∨ (verify_firebase_token vt ah).2 = [CallEvent.verifierCall] := by
  match ah with
  | none => exact Or.inl rfl
  | some h =>
    dsimp only [verify_firebase_token]
    split
    · exact Or.inl rfl
    · exact Or.inr rfl

/-- fetch_resumes_from_sheet invokes the store at most once. -/
theorem fetch_calls_sub (sheetId : Option String)
    (store : Except String (List (List String))) :
    (fetch_resumes_from_sheet sheetId store).calls = []
      ∨ (fetch_resumes_from_sheet sheetId store).calls = [CallEvent.storeCall] := by
  match sheetId with
  | none => exact Or.inl rfl
  | some sid =>
    by_cases hs : sid = ""
    · exact Or.inl (by simp [fetch_resumes_from_sheet, hs])
    · cases store with
      | error e => exact Or.inr (by simp [fetch_resumes_from_sheet, hs])
      | ok rows => exact Or.inr (by simp [fetch_resumes_from_sheet, hs])

/-- The context_str loop with an arbitrary accumulator equals the
accumulator followed by the blocks in order. -/
theorem contextStr_go (rs : List Resume) (acc : String) :
    rs.foldl (fun context_str r => context_str ++ candidateBlock r) acc
      = acc ++ blocksConcat rs := by
  induction rs generalizing acc with
  | nil => simp [blocksConcat]
  | cons r rs ih => simp [blocksConcat, ih, String.append_assoc]

/-! Claim theorems. -/

/-- C1 counterexample: a POST whose job-description field is absent, in
JSON mode, carrying a well-formed bearer token, answers 400 — but the
identity verifier HAS been invoked (authentication runs before the JD
check, lines 226-228 vs 237-238), so the collaborator call count is not
zero as the claim requires. -/
theorem c1_counterexample :
    (handle_chat (analyze_with_gemini (fun _ => Except.ok "# Report"))
        (fun _ => some "uid") (some "SHEET") (Except.ok [["Alice", "resume body"]])
        { method := "POST", authorization := some "Bearer tok",
          content_type := some "application/json",
          jsonMessageText := none, jsonJd := none, formJd := none })
      = (⟨Body.text "Error: No JD provided.", 400⟩, [CallEvent.verifierCall])
    ∧ [CallEvent.verifierCall] ≠ ([] : List CallEvent) :=
  ⟨rfl, by decide⟩

/-- C1 (amended): every POST whose extracted job description is empty or
absent (either submission mode) is answered with a 4xx status (400 when
authentication succeeds, 401 otherwise) and invokes neither the data
store nor the model endpoint; only the identity verifier may have been
invoked, since authentication precedes the job-description check. -/
theorem c1_empty_jd_no_downstream
    (analyze : String → List Resume → Except String String × List CallEvent)
    (vt : String → Option String) (sheetId : Option String)
    (store : Except String (List (List String))) (req : Request)
    (hm : req.method = "POST") (hjd : jd_of req = "") :
    (400 ≤ (handle_chat analyze vt sheetId store req).1.status
      ∧ (handle_chat analyze vt sheetId store req).1.status < 500)
    ∧ CallEvent.storeCall ∉ (handle_chat analyze vt sheetId store req).2
    ∧ CallEvent.modelCall ∉ (handle_chat analyze vt sheetId store req).2 := by
  rcases hv : verify_firebase_token vt req.authorization with ⟨u, ev⟩
  have hev : ev = [] ∨ ev = [CallEvent.verifierCall] := by
    have h2 := verify_calls_sub vt req.authorization
    rw [hv] at h2
    exact h2
  have htr : (handle_chat analyze vt sheetId store req).2 = ev ∧
      ((handle_chat analyze vt sheetId store req).1.status = 401 ∨
        (handle_chat analyze vt sheetId store req).1.status = 400) := by
    cases u with
    | none => refine ⟨?_, Or.inl ?_⟩ <;> simp [handle_chat, hm, hv]
    | some user => refine ⟨?_, Or.inr ?_⟩ <;> simp [handle_chat, hm, hv, hjd]
  refine ⟨?_, ?_, ?_⟩
  · rcases htr.2 with h | h <;> rw [h] <;> omega
  · rw [htr.1]; rcases hev with h | h <;> subst h <;> simp
  · rw [htr.1]; rcases hev with h | h <;> subst h <;> simp

/-- C1 witness: the amended statement at a concrete empty-JD request. -/
theorem c1_empty_jd_no_downstream_witness :
    (400 ≤ (handle_chat (fun _ _ => (Except.ok "MD", [CallEvent.modelCall]))
        (fun _ => some "uid") (some "SHEET") (Except.ok [])
        { method := "POST", authorization := some "Bearer tok",
          content_type := some "application/json",
          jsonMessageText := none, jsonJd := none, formJd := none }).1.status
      ∧ (handle_chat (fun _ _ => (Except.ok "MD", [CallEvent.modelCall]))
        (fun _ => some "uid") (some "SHEET") (Except.ok [])
        { method := "POST", authorization := some "Bearer tok",
          content_type := some "application/json",
          jsonMessageText := none, jsonJd := none, formJd := none }).1.status < 500)
    ∧ CallEvent.storeCall ∉ (handle_chat (fun _ _ => (Except.ok "MD", [CallEvent.modelCall]))
        (fun _ => some "uid") (some "SHEET") (Except.ok [])
        { method := "POST", authorization := some "Bearer tok",
          content_type := some "application/json",
          jsonMessageText := none, jsonJd := none, formJd := none }).2
    ∧ CallEvent.modelCall ∉ (handle_chat (fun _ _ => (Except.ok "MD", [CallEvent.modelCall]))
        (fun _ => some "uid") (some "SHEET") (Except.ok [])
        { method := "POST", authorization := some "Bearer tok",
          content_type := some "application/json",
          jsonMessageText := none, jsonJd := none, formJd := none }).2 :=
  c1_empty_jd_no_downstream _ _ _ _ _ rfl rfl

/-- C2 (code bug): a POST with a valid bearer token, a non-empty job
description, a non-empty decoded pool, and a model call that would
succeed, is answered 500 "System Error: ..." carrying the TypeError of
line 191 — never 200 with the model's Markdown: the success path is
unreachable. -/
theorem c2_success_path_unreachable :
    handle_chat (analyze_with_gemini (fun _ => Except.ok "# Report"))
        (fun _ => some "uid") (some "SHEET")
        (Except.ok [["Alice", "resume body"]])
        { method := "POST", authorization := some "Bearer tok",
          content_type := some "application/json",
          jsonMessageText := none, jsonJd := some "Senior Python engineer",
          formJd := none }
      = (⟨Body.text ("System Error: " ++ typeError191), 500⟩,
          [CallEvent.verifierCall, CallEvent.storeCall]) := by
  rfl

/-- C3 counterexample: the row ["", ""] has zero non-empty fields, yet
the decoder retains it (the code tests only the row LENGTH, line 139),
so rows with fewer than 2 non-empty fields are not excluded. -/
theorem c3_counterexample :
    decodeRows [["", ""]] ≠ []
    ∧ decodeRows [["", ""]]
        = [{ name := "", content := "", is_archived := false, path := "#" }] :=
  ⟨by decide, rfl⟩

/-- C3 (amended): the Row Decoder excludes exactly the rows with fewer
than 2 fields (by length, regardless of emptiness), so the output
cardinality never exceeds the input cardinality; every retained row maps
positionally (0 name, 1 content, 2 status, 3 path) with path defaulting
to "#" when position 3 is absent. -/
theorem c3_row_decoder (rows : List (List String)) :
    decodeRows rows
      = (rows.filter (fun row => decide (2 ≤ row.length))).map (fun row =>
          { name := row.getD 0 ""
            content := row.getD 1 ""
            is_archived := pyIn "archived" (pyLower (row.getD 2 ""))
            path := row.getD 3 "#" })
    ∧ (decodeRows rows).length ≤ rows.length := by
  have h := decodeRows_filter_map rows
  refine ⟨h, ?_⟩
  rw [h, List.length_map]
  exact List.length_filter_le _ _

/-- C4: a missing or empty store identifier, or a raised fetch error,
yields an empty sequence plus a logged diagnostic; the embedded function
is total (the try/except of lines 130, 147-149 re-raises nothing), so no
exception reaches the caller and well-shaped rows decode without
faulting. -/
theorem c4_fetch_failure_empty_and_logged (sheetId : Option String)
    (store : Except String (List (List String)))
    (h : sheetId = none ∨ sheetId = some "" ∨ ∃ e, store = Except.error e) :
    (fetch_resumes_from_sheet sheetId store).resumes = []
    ∧ (fetch_resumes_from_sheet sheetId store).logs ≠ [] := by
  rcases h with h | h | ⟨e, h⟩
  · subst h; exact ⟨rfl, by simp [fetch_resumes_from_sheet]⟩
  · subst h; exact ⟨rfl, by simp [fetch_resumes_from_sheet]⟩
  · subst h
    match sheetId with
    | none => exact ⟨rfl, by simp [fetch_resumes_from_sheet]⟩
    | some sid =>
      by_cases hs : sid = ""
      · subst hs; exact ⟨rfl, by simp [fetch_resumes_from_sheet]⟩
      · constructor <;> simp [fetch_resumes_from_sheet, hs]

/-- C4 witness: the failure behavior at a concrete missing SHEET_ID. -/
theorem c4_fetch_failure_empty_and_logged_witness :
    (fetch_resumes_from_sheet none (Except.ok [["Alice", "resume"]])).resumes = []
    ∧ (fetch_resumes_from_sheet none (Except.ok [["Alice", "resume"]])).logs ≠ [] :=
  c4_fetch_failure_empty_and_logged none (Except.ok [["Alice", "resume"]]) (Or.inl rfl)

/-- C5 (code bug): for EVERY model outcome, job description and pool,
the adapter raises line 191's TypeError before reaching its try block:
the failure is never converted to an error-string result, the fault
propagates to the caller, and the model endpoint is never invoked. -/
theorem c5_adapter_always_raises
    (generate : String → Except String String) (jd_text : String)
    (resumes : List Resume) :
    analyze_with_gemini generate jd_text resumes
      = (Except.error typeError191, []) := rfl

/-- C6: a POST without an Authorization header, or whose header does not
start with "Bearer ", is answered 401 with an empty collaborator trace:
neither the verifier, nor the data store, nor the model is called. -/
theorem c6_unauthorized_short_circuit
    (analyze : String → List Resume → Except String String × List CallEvent)
    (vt : String → Option String) (sheetId : Option String)
    (store : Except String (List (List String))) (req : Request)
    (hm : req.method = "POST")
    (ha : req.authorization = none
      ∨ ∃ h, req.authorization = some h ∧ pyStartsWith h "Bearer " = false) :
    handle_chat analyze vt sheetId store req
      = (⟨Body.json [("error", "Unauthorized")], 401⟩, []) := by
  have hv : verify_firebase_token vt req.authorization = (none, []) := by
    rcases ha with ha | ⟨h, ha, hb⟩
    · rw [ha]; rfl
    · rw [ha]; simp [verify_firebase_token, hb]
  simp [handle_chat, hm, hv]

/-- C6 witness: a concrete POST with no Authorization header. -/
theorem c6_unauthorized_short_circuit_witness :
    handle_chat (fun _ _ => (Except.ok "MD", [CallEvent.modelCall]))
        (fun _ => some "uid") (some "SHEET") (Except.ok [["Alice", "resume"]])
        { method := "POST", authorization := none, content_type := none,
          jsonMessageText := none, jsonJd := none, formJd := some "JD" }
      = (⟨Body.json [("error", "Unauthorized")], 401⟩, []) :=
  c6_unauthorized_short_circuit _ _ _ _ _ rfl (Or.inl rfl)

/-- C7: on an authenticated POST with a non-empty job description whose
decoded candidate pool is empty, the handler answers 500 "Error: No
resumes found." and the model-analysis step is never invoked. -/
theorem c7_empty_pool_error
    (analyze : String → List Resume → Except String String × List CallEvent)
    (vt : String → Option String) (sheetId : Option String)
    (store : Except String (List (List String))) (req : Request) (u : String)
    (hm : req.method = "POST")
    (hv : (verify_firebase_token vt req.authorization).1 = some u)
    (hjd : jd_of req ≠ "")
    (hres : (fetch_resumes_from_sheet sheetId store).resumes = []) :
    (handle_chat analyze vt sheetId store req).1
      = ⟨Body.text "Error: No resumes found.", 500⟩
    ∧ CallEvent.modelCall ∉ (handle_chat analyze vt sheetId store req).2 := by
  rcases hv2 : verify_firebase_token vt req.authorization with ⟨u2, ev⟩
  rw [hv2] at hv
  simp only at hv
  subst hv
  have hev : ev = [] ∨ ev = [CallEvent.verifierCall] := by
    have h2 := verify_calls_sub vt req.authorization
    rw [hv2] at h2
    exact h2
  have hfc := fetch_calls_sub sheetId store
  have hout : handle_chat analyze vt sheetId store req
      = (⟨Body.text "Error: No resumes found.", 500⟩,
          ev ++ (fetch_resumes_from_sheet sheetId store).calls) := by
    simp [handle_chat, hm, hv2, hjd, hres]
  rw [hout]
  refine ⟨rfl, ?_⟩
  rcases hev with h | h <;> rcases hfc with h2 | h2 <;> simp [h, h2]

/-- C7 witness: a concrete authenticated POST against a store with zero
rows. -/
theorem c7_empty_pool_error_witness :
    (handle_chat (fun _ _ => (Except.ok "MD", [CallEvent.modelCall]))
        (fun _ => some "uid") (some "SHEET") (Except.ok [])
        { method := "POST", authorization := some "Bearer tok",
          content_type := none, jsonMessageText := none, jsonJd := none,
          formJd := some "Staff engineer JD" }).1
      = ⟨Body.text "Error: No resumes found.", 500⟩
    ∧ CallEvent.modelCall ∉ (handle_chat (fun _ _ => (Except.ok "MD", [CallEvent.modelCall]))
        (fun _ => some "uid") (some "SHEET") (Except.ok [])
        { method := "POST", authorization := some "Bearer tok",
          content_type := none, jsonMessageText := none, jsonJd := none,
          formJd := some "Staff engineer JD" }).2 :=
  c7_empty_pool_error _ _ _ _ _ "uid" rfl rfl (by decide) rfl

/-- C8: the candidate-pool section of the prompt is exactly the
per-candidate delimited blocks (each tagged [ARCHIVED]/[ACTIVE] by its
archived flag and carrying name, path and content, per candidateBlock)
concatenated in input order, and the composed prompt embeds that section
intact at the template's pool slot. -/
theorem c8_blocks_in_input_order (jd_text : String) (resumes : List Resume) :
    contextStr resumes = blocksConcat resumes
    ∧ full_prompt jd_text resumes
        = system_instruction ++ PROMPT_TEMPLATE_format jd_text (blocksConcat resumes) := by
  have h : contextStr resumes = blocksConcat resumes := by
    simpa [contextStr] using contextStr_go resumes ""
  exact ⟨h, by simp only [full_prompt, h]⟩

/-- C9: is_archived is true exactly when the token "archived" occurs,
case-insensitively, as a substring of the status field (position 2), and
is false when the status position is absent; checked concretely for
upper-case, mixed-case, non-matching and missing statuses. -/
theorem c9_is_archived_iff (row : List String) :
    ((decodeRow row).is_archived = true
      ↔ List.IsInfix "archived".data ((row.getD 2 "").data.map Char.toLower))
    ∧ (decodeRow ["Alice", "resume text", "ARCHIVED 2023"]).is_archived = true
    ∧ (decodeRow ["Alice", "resume text", "Archived"]).is_archived = true
    ∧ (decodeRow ["Alice", "resume text", "active"]).is_archived = false
    ∧ (decodeRow ["Alice", "resume text"]).is_archived = false := by
  refine ⟨?_, by decide, by decide, by decide, by decide⟩
  simp [decodeRow, pyIn, pyLower]

/-- C10: EVERY content type that extends "application/json" by any
non-empty parameter suffix (e.g. "; charset=utf-8", ";charset=UTF-8")
fails the exact-equality test of line 230, so the request is handled in
form mode: the job description is read from form field "jd" (the JSON
body fields are ignored), and when the analysis step returns text m the
response is the HTML envelope with status 200, not the JSON one. -/
theorem c10_content_type_exact_equality
    (analyze : String → List Resume → Except String String × List CallEvent)
    (vt : String → Option String) (sheetId : Option String)
    (store : Except String (List (List String))) (req : Request)
    (u m : String) (evm : List CallEvent)
    (hm : req.method = "POST")
    (hct : ∃ p, p ≠ "" ∧ req.content_type = some ("application/json" ++ p)) :
    jd_of req = req.formJd.getD ""
    ∧ ((verify_firebase_token vt req.authorization).1 = some u →
        jd_of req ≠ "" →
        (fetch_resumes_from_sheet sheetId store).resumes ≠ [] →
        analyze (jd_of req) (fetch_resumes_from_sheet sheetId store).resumes
          = (Except.ok m, evm) →
        (handle_chat analyze vt sheetId store req).1
          = ⟨Body.text ("<html><body><pre>" ++ m ++ "</pre></body></html>"), 200⟩) := by
  obtain ⟨p, hp, hct⟩ := hct
  have hne : ¬ req.content_type = some "application/json" := by
    rw [hct]
    intro hEq
    apply hp
    have h2 : "application/json" ++ p = "application/json" := by
      injection hEq
    have hd : "application/json".data ++ p.data = "application/json".data := by
      have := congrArg String.data h2
      rwa [String.data_append] at this
    rw [List.append_right_eq_self] at hd
    exact String.ext hd
  refine ⟨by simp [jd_of, hne], ?_⟩
  intro hv hjd hres hana
  rcases hv2 : verify_firebase_token vt req.authorization with ⟨u2, ev⟩
  rw [hv2] at hv
  simp only at hv
  subst hv
  simp [handle_chat, hm, hv2, hjd, hres, hana, hne]

/-- C10 witness: concrete parameterized content type; the JSON body
carries decoy fields which are ignored in favor of the form field. -/
theorem c10_content_type_exact_equality_witness :
    jd_of { method := "POST", authorization := some "Bearer tok",
            content_type := some "application/json; charset=utf-8",
            jsonMessageText := some "DECOY", jsonJd := some "DECOY",
            formJd := some "Staff engineer JD" } = "Staff engineer JD"
    ∧ (handle_chat (fun _ _ => (Except.ok "MD", []))
        (fun _ => some "uid") (some "SHEET") (Except.ok [["Alice", "resume body"]])
        { method := "POST", authorization := some "Bearer tok",
          content_type := some "application/json; charset=utf-8",
          jsonMessageText := some "DECOY", jsonJd := some "DECOY",
          formJd := some "Staff engineer JD" }).1
      = ⟨Body.text "<html><body><pre>MD</pre></body></html>", 200⟩ := by
  have h := c10_content_type_exact_equality (fun _ _ => (Except.ok "MD", []))
    (fun _ => some "uid") (some "SHEET") (Except.ok [["Alice", "resume body"]])
    { method := "POST", authorization := some "Bearer tok",
      content_type := some "application/json; charset=utf-8",
      jsonMessageText := some "DECOY", jsonJd := some "DECOY",
      formJd := some "Staff engineer JD" }
    "uid" "MD" [] rfl ⟨"; charset=utf-8", by decide, rfl⟩
  exact ⟨h.1, h.2 rfl (by decide) (by decide) rfl⟩

end JdScreener
